import Mathlib

/-!
Verification of the queue / playback-session core of the Discord music bot.

Shallow embedding of:
  - `src/modules/resource_optimizer.py` : `MemoryOptimizedQueue` (deque with
    `maxlen` plus a separate `_size` counter), `StreamingJSONWriter.write_queue_data`;
  - `src/modules/queue_manager.py` : `QueueManager.add_to_queue`, `remove_song`,
    `get_next_song`, `restore_queues_on_startup`;
  - `src/modules/audio_player.py` : `VoiceState.audio_player_task`, `VoiceState.stop`,
    `VoiceState.efficient_cleanup_monitor` / `_should_cleanup`,
    `AudioPlayerManager.get_voice_state`.

Machine integers are modelled as `Int` (Python ints are unbounded); fallible
operations return `Option` / explicit error sums; `IndexError` paths are kept
as distinct constructors so that they can be shown unreachable on well-formed
states instead of being silently merged with intended error returns.
-/

namespace MusicBot

/-- A chat-platform member: `discord.Member` restricted to the fields the core
reads (`id`, `name`, `bot`). -/
structure Member where
  id : Nat
  name : String
  bot : Bool
deriving DecidableEq

/-- One queued song: the tuple `(source, title, requester)` stored by
`QueueManager.add_to_queue` (queue_manager.py line 88). The audio source is
abstracted to an opaque numeric handle. -/
structure Track where
  source : Nat
  title : String
  requester : Member
deriving DecidableEq

/-! ## collections.deque primitives

`MemoryOptimizedQueue._queue` is a `collections.deque(maxlen=...)`.  The three
primitives the source uses are `append` (which silently drops the leftmost
element when the deque is full), and `rotate` in both directions
(resource_optimizer.py lines 53 and 55). -/

/-- `deque.append` semantics: when a `maxlen` is set and the deque is full,
appending discards the leftmost (oldest) element. -/
def dequeAppend {α : Type} (maxlen : Option Nat) (l : List α) (x : α) : List α :=
  match maxlen with
  | none => l ++ [x]
  | some m => (l ++ [x]).drop ((l ++ [x]).length - m)

/-- `deque.rotate(-k)` for `k ≥ 0`: rotate left by `k` (modulo the length;
rotating an empty deque is a no-op, as in Python). -/
def rotLeft {α : Type} (l : List α) (k : Nat) : List α :=
  if l.length = 0 then l
  else l.drop (k % l.length) ++ l.take (k % l.length)

/-- `deque.rotate(k)` for `k ≥ 0`: rotate right by `k` (modulo the length;
rotating an empty deque is a no-op, as in Python). -/
def rotRight {α : Type} (l : List α) (k : Nat) : List α :=
  if l.length = 0 then l
  else l.drop (l.length - k % l.length) ++ l.take (l.length - k % l.length)

/-! ## MemoryOptimizedQueue (resource_optimizer.py lines 23-82) -/

/-- `MemoryOptimizedQueue`: a deque `_queue` (here `q`, front at the head of
the list) with an optional `maxlen`, plus the independently maintained
`_size` counter.  `_size` is a Python int, hence `Int` here: the code never
clamps it at zero. -/
structure MemoryOptimizedQueue (α : Type) where
  q : List α
  maxlen : Option Nat
  size : Int
deriving DecidableEq

namespace MemoryOptimizedQueue

/-- Lines 32-35: `self._queue.append(item); self._size += 1`.  Note that
`_size` is incremented even when a full bounded deque silently drops its
oldest element. -/
def append {α : Type} (Q : MemoryOptimizedQueue α) (x : α) : MemoryOptimizedQueue α :=
  { Q with q := dequeAppend Q.maxlen Q.q x, size := Q.size + 1 }

/-- Lines 37-42: raise `IndexError` (here `none`) when the backing deque is
empty, otherwise decrement `_size` and pop the leftmost item. -/
def popleft {α : Type} (Q : MemoryOptimizedQueue α) :
    Option (α × MemoryOptimizedQueue α) :=
  match Q.q with
  | [] => none
  | x :: rest => some (x, { Q with q := rest, size := Q.size - 1 })

/-- Lines 44-58: bounds-check `index` against the backing deque's length
(`len(self._queue)`, not `_size`), then `rotate(-index)`, `popleft`,
`rotate(index)`, and decrement `_size`.  `none` is the `IndexError`. -/
def remove_by_index {α : Type} (Q : MemoryOptimizedQueue α) (index : Int) :
    Option (α × MemoryOptimizedQueue α) :=
  if index < 0 ∨ (Q.q.length : Int) ≤ index then none
  else
    match rotLeft Q.q index.toNat with
    | [] => none
    | x :: rest =>
        some (x, { Q with q := rotRight rest index.toNat, size := Q.size - 1 })

/-- Lines 60-65: remember `_size`, clear the deque, reset `_size` to zero. -/
def clear {α : Type} (Q : MemoryOptimizedQueue α) : Int × MemoryOptimizedQueue α :=
  (Q.size, { Q with q := [], size := 0 })

/-- Line 67-68: `__len__` returns the `_size` counter, not the deque length. -/
def len {α : Type} (Q : MemoryOptimizedQueue α) : Int := Q.size

end MemoryOptimizedQueue

/-- Well-formedness: the `_size` counter agrees with the number of elements
actually held by the backing deque.  `__len__` (and every emptiness test in
queue_manager.py built on it) is accurate exactly on such states. -/
def wf {α : Type} (Q : MemoryOptimizedQueue α) : Prop :=
  Q.size = (Q.q.length : Int)

instance wfDecidable {α : Type} (Q : MemoryOptimizedQueue α) : Decidable (wf Q) :=
  inferInstanceAs (Decidable (Q.size = (Q.q.length : Int)))

/-! ## Operation sequences over MemoryOptimizedQueue (for the `_size`
counter invariant) -/

/-- One public operation of `MemoryOptimizedQueue`. -/
inductive QOp (α : Type) where
  | append (x : α)
  | popleft
  | removeByIndex (i : Int)
  | clear

/-- Apply one operation; the two `IndexError` paths (`popleft` on an empty
deque, `remove_by_index` out of bounds) raise before mutating anything, so
the state is returned unchanged there. -/
def applyOp {α : Type} (Q : MemoryOptimizedQueue α) : QOp α → MemoryOptimizedQueue α
  | .append x => Q.append x
  | .popleft =>
      match Q.popleft with
      | none => Q
      | some (_, Q') => Q'
  | .removeByIndex i =>
      match Q.remove_by_index i with
      | none => Q
      | some (_, Q') => Q'
  | .clear => (Q.clear).2

/-- Apply a sequence of operations, left to right. -/
def applyOps {α : Type} (Q : MemoryOptimizedQueue α) : List (QOp α) → MemoryOptimizedQueue α
  | [] => Q
  | op :: ops => applyOps (applyOp Q op) ops

/-- The precondition of claim C10: every `append` in the sequence is invoked
while the reported length (`__len__`, i.e. `_size`) is strictly below the
`maxlen` bound (trivially satisfied when no bound is set). -/
def guardedB {α : Type} (Q : MemoryOptimizedQueue α) : List (QOp α) → Bool
  | [] => true
  | op :: ops =>
      (match op with
       | .append _ =>
           match Q.maxlen with
           | none => true
           | some m => decide (Q.size < (m : Int))
       | _ => true) && guardedB (applyOp Q op) ops

/-! ## QueueManager (queue_manager.py) -/

/-- A guild queue as managed by `QueueManager`: `get_queue` (lines 54-58)
always constructs it with `maxlen = max_queue_size`. -/
abbrev SongQueue := MemoryOptimizedQueue Track

/-- The two `ValueError`s raised by `add_to_queue` (lines 79-85). -/
inductive AddError where
  | queueFull
  | userLimitExceeded
deriving DecidableEq

/-- Line 83: `sum(1 for _, _, req in queue if req.id == requester.id)` —
the requester's current number of queued tracks, counted by scanning the
backing deque. -/
def countUserSongs (Q : SongQueue) (requester : Member) : Nat :=
  (Q.q.filter fun t => t.requester.id = requester.id).length

namespace QueueManager

/-- `QueueManager.add_to_queue` (lines 60-93).  Checks the total size limit
first (line 79, against `len(queue)` = `_size`), then the per-user limit
(lines 83-84), then appends and returns `(queue_position, total_songs)`,
both equal to the new `len(queue)`.  Both `raise` statements fire before any
mutation, so on error the queue is returned unchanged. -/
def add_to_queue (max_queue_size user_queue_limit : Nat) (Q : SongQueue)
    (t : Track) : Except AddError (Int × Int) × SongQueue :=
  if (max_queue_size : Int) ≤ Q.size then (.error .queueFull, Q)
  else if user_queue_limit ≤ countUserSongs Q t.requester then
    (.error .userLimitExceeded, Q)
  else
    let Q' := Q.append t
    (.ok (Q'.size, Q'.size), Q')

/-- Errors of `remove_song`: the intended `ValueError` for an out-of-range
position (line 104), and the `IndexError` that `remove_by_index` would raise
if the `_size` counter disagreed with the deque (unreachable on well-formed
states, kept distinct rather than conflated). -/
inductive RemoveError where
  | invalidPosition
  | indexError
deriving DecidableEq

/-- `QueueManager.remove_song` (lines 95-113): positions are 1-based and
validated against `len(queue)` (= `_size`); valid positions delegate to
`remove_by_index(position - 1)`.  The `raise` fires before any mutation. -/
def remove_song (Q : SongQueue) (position : Int) :
    Except RemoveError Track × SongQueue :=
  if position < 1 ∨ Q.size < position then (.error .invalidPosition, Q)
  else
    match Q.remove_by_index (position - 1) with
    | none => (.error .indexError, Q)
    | some (t, Q') => (.ok t, Q')

/-- Result of `get_next_song`: `empty` is the `None` return for an empty
queue (line 145-146), `song` the dequeued track, `indexError` the exception
`popleft` would raise on a `_size`/deque mismatch. -/
inductive PopResult where
  | empty
  | indexError
  | song (t : Track)
deriving DecidableEq

/-- `QueueManager.get_next_song` (lines 133-151): `if not queue: return None`
(emptiness via `__len__`, i.e. the `_size` counter), otherwise
`queue.popleft()`. -/
def get_next_song (Q : SongQueue) : PopResult × SongQueue :=
  if Q.size = 0 then (.empty, Q)
  else
    match Q.popleft with
    | none => (.indexError, Q)
    | some (t, Q') => (.song t, Q')

end QueueManager

/-! ## Interleaved adds and pops (FIFO refinement, claim C3) -/

/-- One queue-facing event: a command handler adding a track through
`add_to_queue`, or the playback loop dequeuing through `get_next_song`. -/
inductive FifoOp where
  | enqueue (t : Track)
  | dequeue

/-- Run a sequence of adds and pops against the implementation, collecting
each pop's outcome (`some t` for a dequeued track, `none` for the empty
sentinel). -/
def runOps (M U : Nat) (Q : SongQueue) : List FifoOp → SongQueue × List (Option Track)
  | [] => (Q, [])
  | .enqueue t :: ops => runOps M U (QueueManager.add_to_queue M U Q t).2 ops
  | .dequeue :: ops =>
      let r := QueueManager.get_next_song Q
      let rest := runOps M U r.2 ops
      let out : Option Track :=
        match r.1 with
        | .song t => some t
        | _ => none
      (rest.1, out :: rest.2)

/-- Reference-level per-user count on a plain list. -/
def countUserList (l : List Track) (requester : Member) : Nat :=
  (l.filter fun t => t.requester.id = requester.id).length

/-- Reference-level add: the limit checks of `add_to_queue` expressed over a
plain list, appending at the tail on success. -/
def specAdd (M U : Nat) (l : List Track) (t : Track) : List Track :=
  if (M : Int) ≤ (l.length : Int) then l
  else if U ≤ countUserList l t.requester then l
  else l ++ [t]

/-- Reference FIFO run: the queue is a plain list, a pop removes the head and
reports it (`none` when the list is empty). -/
def specRun (M U : Nat) (l : List Track) : List FifoOp → List Track × List (Option Track)
  | [] => (l, [])
  | .enqueue t :: ops => specRun M U (specAdd M U l t) ops
  | .dequeue :: ops =>
      let rest := specRun M U l.tail ops
      (rest.1, l.head? :: rest.2)

/-! ## The playback loop (audio_player.py, `VoiceState.audio_player_task`,
lines 71-162) -/

/-- How a finite run of the playback loop ends.  `waitingForQueue` is the
empty-queue suspension point (lines 78-87): the loop blocks on
`queue_ready.wait()` with the session alive.  `divergedPop` marks the state
in which `_size` claims the queue is non-empty while the backing deque is
empty: there `get_next_song`'s `popleft` raises `IndexError`, the handler at
lines 111-121 swallows it and `continue`s without consuming anything, so the
loop spins forever; unreachable on well-formed queues. -/
inductive LoopOutcome where
  | waitingForQueue
  | divergedPop
deriving DecidableEq

/-- Observable outcome of running the playback loop until its queue is
drained: tracks successfully handed to `voice.play` (in order), tracks whose
dequeue/setup block raised (reported via `error_handler.handle_error`, lines
111-117), and tracks whose `voice.play` raised (reported via
`_handle_playback_error`, lines 135-137).  The loop only terminates on
cancellation, which this run does not model, so "the session survived" is
`outcome = waitingForQueue`. -/
structure LoopResult where
  outcome : LoopOutcome
  played : List Track
  loadErrorsReported : List Track
  playErrorsReported : List Track
deriving DecidableEq

/-- `VoiceState.audio_player_task` (lines 71-162), run until the queue is
empty.  `setupRaises t` abstracts "some statement of the dequeue/setup block
(lines 90-110) raised while handling `t`" — e.g. the source materialization
or the now-playing message; the `except` at line 111 reports it, cleans up
and `continue`s.  `playRaises t` abstracts `voice.play` raising (line 126);
the `except` at line 135 reports it and the loop continues.  `voice = false`
is the `else` branch at line 128: warn and `continue` without playing.
The emptiness tests at lines 78 and 145 both read `__len__` (= `_size`). -/
def audio_player_task (setupRaises playRaises : Track → Bool) (voice : Bool)
    (Q : SongQueue) : LoopResult :=
  if Q.size = 0 then ⟨.waitingForQueue, [], [], []⟩
  else
    match h : Q.q with
    | [] => ⟨.divergedPop, [], [], []⟩
    | t :: rest =>
        let r := audio_player_task setupRaises playRaises voice
          { q := rest, maxlen := Q.maxlen, size := Q.size - 1 }
        if setupRaises t then
          { r with loadErrorsReported := t :: r.loadErrorsReported }
        else if voice = false then r
        else if playRaises t then
          { r with playErrorsReported := t :: r.playErrorsReported }
        else { r with played := t :: r.played }
termination_by Q.q.length
decreasing_by simp [h]

/-! ## VoiceState.stop (audio_player.py lines 337-380) -/

/-- The per-guild session state that `stop` touches.  `audioPlayerTask` /
`cleanupTask` record whether the task handles are still set (they are set to
`None` once cancelled and awaited).  `disconnects` counts the voice
disconnect calls actually issued (line 365), to express "released exactly
once"; `sourceCleanups` likewise counts `source.cleanup()` calls
(line 193). -/
structure Session where
  audioPlayerTask : Bool
  cleanupTask : Bool
  current : Option Track
  currentTitle : Option String
  currentRequester : Option Member
  currentMessage : Bool
  voice : Bool
  disconnects : Nat
  sourceCleanups : Nat
deriving DecidableEq

namespace VoiceState

/-- `_cleanup_current_song` (lines 189-203): call `cleanup()` on the current
source if any, then clear all three current-track fields. -/
def cleanupCurrentSong (s : Session) : Session :=
  { s with
    current := none
    currentTitle := none
    currentRequester := none
    sourceCleanups := s.sourceCleanups + (if s.current.isSome then 1 else 0) }

/-- `_cancel_cleanup_task` (lines 293-304): cancel and await the monitor task
when the handle is still set, then set the handle to `None`. -/
def cancelCleanupTask (s : Session) : Session :=
  if s.cleanupTask then { s with cleanupTask := false } else s

/-- The `finally` block of `audio_player_task` (lines 156-162), which runs
when the playback-loop task is cancelled and awaited: clean up the current
song, then cancel the monitor task. -/
def playerTaskFinally (s : Session) : Session :=
  cancelCleanupTask (cleanupCurrentSong s)

/-- `VoiceState.stop` (lines 337-380): cancel-and-await the playback loop
(whose own `finally` runs first) and null its handle; cancel the monitor
task; clean up the current song; stop and disconnect the voice client if
still held, nulling it; delete the now-playing message.  Every step is
guarded by a presence test, and the whole body is wrapped in a blanket
`except`, so the function never raises. -/
def stop (s : Session) : Session :=
  let s1 :=
    if s.audioPlayerTask then
      { playerTaskFinally s with audioPlayerTask := false }
    else s
  let s2 := cancelCleanupTask s1
  let s3 := cleanupCurrentSong s2
  let s4 :=
    if s3.voice then { s3 with voice := false, disconnects := s3.disconnects + 1 }
    else s3
  { s4 with currentMessage := false }

end VoiceState

/-- The terminated session state claim C5 describes: both background-task
handles cleared, current-track fields cleared, no voice connection, no
pending now-playing message. -/
def terminated (s : Session) : Prop :=
  s.audioPlayerTask = false ∧ s.cleanupTask = false ∧ s.current = none ∧
  s.currentTitle = none ∧ s.currentRequester = none ∧
  s.currentMessage = false ∧ s.voice = false

/-! ## The cleanup monitor (audio_player.py lines 218-291) -/

/-- The members of the connected voice channel (`voice.channel.members`),
including the bot itself. -/
structure ChannelInfo where
  members : List Member
deriving DecidableEq

/-- The session state read and written by `efficient_cleanup_monitor` and
`_should_cleanup`.  Times are scheduler-clock values
(`asyncio.get_event_loop().time()`), modelled as `Int`. -/
structure MonitorState where
  autoLeaveEmpty : Bool
  emptyChannelDelay : Int
  emptyChannelDetectedTime : Option Int
  lastActivityTime : Int
  activityTimeout : Int
  voice : Option ChannelInfo
  queueEmpty : Bool
  current : Option Track
deriving DecidableEq

/-- `_is_voice_channel_empty` (lines 248-267): no connection counts as
empty; otherwise true iff no non-bot member other than the bot itself is in
the channel. -/
def is_voice_channel_empty (botId : Nat) (voice : Option ChannelInfo) : Bool :=
  match voice with
  | none => true
  | some ch => (ch.members.filter fun m => !m.bot && m.id != botId).length = 0

/-- `_should_cleanup` (lines 269-291).  Empty-channel branch: on first
detection start the grace timer and return `False`; once the grace delay has
elapsed return `True`; while the timer is still running, control falls
through to the inactivity test at line 290.  A non-empty channel resets the
timer and falls through to the inactivity test. -/
def should_cleanup (botId : Nat) (now : Int) (s : MonitorState) :
    Bool × MonitorState :=
  if s.autoLeaveEmpty && is_voice_channel_empty botId s.voice then
    match s.emptyChannelDetectedTime with
    | none => (false, { s with emptyChannelDetectedTime := some now })
    | some t0 =>
        if s.emptyChannelDelay ≤ now - t0 then (true, s)
        else (s.activityTimeout ≤ now - s.lastActivityTime, s)
  else
    (s.activityTimeout ≤ now - s.lastActivityTime,
     { s with emptyChannelDetectedTime := none })

/-- One iteration of `efficient_cleanup_monitor` after its sleep
(lines 224-235): teardown (`stop()` plus the goodbye message, then `break`)
happens only when `_should_cleanup()` returned `True` AND the guild queue is
empty AND no current track is set AND a voice client is held whose channel
has at most one member (the bot itself).  The returned `Bool` is "the
session was torn down on this check". -/
def monitor_check (botId : Nat) (now : Int) (s : MonitorState) :
    Bool × MonitorState :=
  let r := should_cleanup botId now s
  if r.1 then
    if r.2.queueEmpty && r.2.current.isNone then
      match r.2.voice with
      | some ch => (ch.members.length ≤ 1, r.2)
      | none => (false, r.2)
    else (false, r.2)
  else (false, r.2)

/-! ## AudioPlayerManager.get_voice_state (audio_player.py lines 406-415) -/

/-- A registry-level view of one `VoiceState`: its identity and whether its
two background tasks (spawned in `VoiceState.__init__`, lines 66-67) are
running. -/
structure VSession where
  sessionId : Nat
  audioTaskRunning : Bool
  monitorTaskRunning : Bool
deriving DecidableEq

/-- Outcome of `get_voice_state` for one guild: the session returned to the
caller, the registry entry afterwards, and the sessions that were displaced
from the registry (with their task flags exactly as they were — the code
never touches them). -/
structure GetVSResult where
  returned : VSession
  registryEntry : VSession
  orphaned : List VSession
deriving DecidableEq

/-- `AudioPlayerManager.get_voice_state` (lines 406-415): reuse the stored
entry only when it exists and `ctx.voice_client` is truthy; otherwise
construct a fresh `VoiceState` (its constructor spawns both tasks) and
overwrite the registry entry.  No `stop()` is invoked on the displaced
session anywhere in this method. -/
def get_voice_state (existing : Option VSession) (voiceClientValid : Bool)
    (freshId : Nat) : GetVSResult :=
  match existing with
  | some st =>
      if voiceClientValid then ⟨st, st, []⟩
      else ⟨⟨freshId, true, true⟩, ⟨freshId, true, true⟩, [st]⟩
  | none => ⟨⟨freshId, true, true⟩, ⟨freshId, true, true⟩, []⟩

/-- Number of live playback-loop tasks for the guild after a
`get_voice_state` call: the registry entry's plus those of displaced
sessions whose loops were never cancelled. -/
def liveLoopTasks (r : GetVSResult) : Nat :=
  (if r.registryEntry.audioTaskRunning then 1 else 0) +
    (r.orphaned.filter fun s => s.audioTaskRunning).length

/-! ## QueueManager.restore_queues_on_startup (queue_manager.py lines 236-312) -/

/-- The instance attributes bound in `QueueManager.__init__`
(lines 32-52).  Python resolves `self.NAME` against this set (there are no
class-level attributes on `QueueManager`); a miss raises `AttributeError`. -/
def queueManagerAttrs : List String :=
  ["client", "guild_queues", "max_queue_size", "user_queue_limit",
   "enable_persistence", "persistence_file", "max_age_hours",
   "save_interval_minutes"]

/-- One guild entry of the persisted snapshot (§6 of the file format):
current-track title if any, queued titles, and the `saved_at` timestamp
(seconds). -/
structure SnapshotEntry where
  guildName : String
  currentSong : Option String
  queue : List String
  savedAt : Int
deriving DecidableEq

/-- A guild as visible to the bot at restore time: whether `bot.get_guild`
finds it, whether it has a system channel, and whether some text channel
accepts messages from the bot. -/
structure BotGuild where
  gid : Nat
  name : String
  systemChannel : Bool
  sendableTextChannel : Bool
deriving DecidableEq

/-- Inputs of a startup restore: the persistence toggle, whether the
snapshot file exists, its parsed guild entries, the guilds the bot can see,
the configured max age (hours), and the current wall-clock time (seconds). -/
structure RestoreInput where
  enablePersistence : Bool
  fileExists : Bool
  entries : List (Nat × SnapshotEntry)
  guilds : List BotGuild
  maxAgeHours : Int
  now : Int

/-- Observable outcome of a startup restore: how many restoration notices
were posted, whether the snapshot file was cleared, and whether the blanket
handler at line 311 logged a failure. -/
structure RestoreOutput where
  notices : Nat
  fileCleared : Bool
  errorLogged : Bool
deriving DecidableEq

/-- One iteration of the per-guild loop (lines 255-304).  The body's first
step, `self.bot.get_guild(...)` (line 258), resolves `bot` against the
instance attributes; a miss raises inside the per-entry `try` and the
`except` at line 302 `continue`s.  Were the attribute present: skip unknown
guilds (line 260), skip entries older than the max age (lines 265-271,
float-precise age in hours), and send one notice iff a notification channel
(system channel or first sendable text channel) exists (lines 273-300).
Returns whether a notice was sent for this entry. -/
def restore_entry (inp : RestoreInput) (e : Nat × SnapshotEntry) : Bool :=
  if "bot" ∈ queueManagerAttrs then
    match inp.guilds.find? fun g => g.gid = e.1 with
    | none => false
    | some g =>
        if (inp.maxAgeHours : ℚ) < ((inp.now - e.2.savedAt : Int) : ℚ) / 3600 then
          false
        else g.systemChannel || g.sendableTextChannel
  else false

/-- Whether the snapshot-clearing statement at line 309,
`await aiofiles.open(self.PERSISTENCE_FILE, "w").close()`, succeeds.  It
does not: `aiofiles.open(...)` returns a lazy context manager that only
opens (and would only then truncate) the file when awaited, and line 309
calls `.close()` on the unawaited manager, so the file is never opened or
truncated and the expression raises — reaching the blanket handler at
line 311, which logs the failure. -/
def clearSnapshotSucceeds : Bool := false

/-- Lines 242-309, the body of the outer `try` after the attribute lookup
`self.PERSISTENCE_FILE` has succeeded: missing file → return; empty data →
return (note: without clearing); otherwise run the per-entry loop and then
attempt to clear the snapshot file (line 309) — an attempt that itself
raises into the blanket handler at line 311 without touching the file. -/
def restore_body (inp : RestoreInput) : RestoreOutput :=
  if !inp.fileExists then ⟨0, false, false⟩
  else if inp.entries.isEmpty then ⟨0, false, false⟩
  else
    let notices := (inp.entries.filter fun e => restore_entry inp e).length
    if clearSnapshotSucceeds then ⟨notices, true, false⟩
    else ⟨notices, false, true⟩

/-- `QueueManager.restore_queues_on_startup` (lines 236-312).  After the
persistence toggle, the first statement is `self.PERSISTENCE_FILE.exists()`
(line 242): `__init__` binds `persistence_file`, not `PERSISTENCE_FILE`, so
the attribute lookup is checked against `queueManagerAttrs`; on a miss the
`AttributeError` propagates to the blanket `except` at line 311, which logs
and returns — no notice is posted and the file is not cleared. -/
def restore_queues_on_startup (inp : RestoreInput) : RestoreOutput :=
  if !inp.enablePersistence then ⟨0, false, false⟩
  else if "PERSISTENCE_FILE" ∈ queueManagerAttrs then restore_body inp
  else ⟨0, false, true⟩

/-! ## StreamingJSONWriter.write_queue_data (resource_optimizer.py
lines 166-238) -/

/-- Whether the object returned by the builtin `open` supports the
asynchronous context-manager protocol.  It does not: `TextIOWrapper` has
`__enter__`/`__exit__` but no `__aenter__`, so `async with open(...)`
raises `TypeError` — after `open(path, "w")` has already truncated the
file.  (resource_optimizer.py imports no `aiofiles`; line 181 uses the
builtin `open`.) -/
def builtinOpenSupportsAsyncWith : Bool := false

/-- `write_queue_data` as a transition on the content of the file at
`self.file_path`.  `chunks` are the pieces the guild loop (lines 182-232)
would emit in order.  Line 181 opens the persistence path itself with mode
`"w"`, truncating it in place — there is no temporary file and no rename
anywhere in the method — and the `async with` over the synchronous handle
then raises before any chunk is written; the `except` at line 236 logs and
re-raises.  Returns (whether the write succeeded, the file content
afterwards). -/
def write_queue_data (prevContent : String) (chunks : List String) :
    Bool × String :=
  let contentAfterOpen := ""
  if builtinOpenSupportsAsyncWith then (true, String.join chunks)
  else (false, contentAfterOpen)

/-- The same method under an exception injected after `k` chunks have been
written (what the streaming body would leave behind had the `async with`
slip been fixed but the write still been interrupted): the file holds the
truncation followed by the first `k` chunks — a prefix of the new snapshot,
never the previous one. -/
def write_queue_data_interrupted (chunks : List String) (failAfter : Option Nat) :
    Bool × String :=
  match failAfter with
  | none => (true, String.join chunks)
  | some k => (false, String.join (chunks.take k))

/-! ## Concrete instances used by witnesses and counterexamples -/

/-- A human member for concrete scenarios. -/
def memA : Member := ⟨1, "A", false⟩

/-- A second human member. -/
def memB : Member := ⟨2, "B", false⟩

/-- The bot itself as a channel member (its user id is 99 in the concrete
scenarios). -/
def memBot : Member := ⟨99, "Bot", true⟩

/-- Concrete track 1. -/
def trk1 : Track := ⟨10, "Song1", memA⟩

/-- Concrete track 2. -/
def trk2 : Track := ⟨11, "Song2", memA⟩

/-- Concrete track 3. -/
def trk3 : Track := ⟨12, "Song3", memB⟩

/-- A concrete well-formed three-track queue with bound 5. -/
def q3 : SongQueue := ⟨[trk1, trk2, trk3], some 5, 3⟩

/-- A concrete well-formed two-track queue with bound 2 (full). -/
def q2full : SongQueue := ⟨[trk1, trk3], some 2, 2⟩

/-- A concrete well-formed one-track queue with bound 2, holding one song
requested by member A. -/
def q1A : SongQueue := ⟨[trk1], some 2, 1⟩

/-- A concrete empty queue with bound 2. -/
def qEmpty2 : SongQueue := ⟨[], some 2, 0⟩

/-- A concrete interleaving of adds and pops: two adds, then three pops
(the third hitting the empty queue). -/
def fifoOpsW : List FifoOp :=
  [.enqueue trk1, .enqueue trk3, .dequeue, .dequeue, .dequeue]

/-- A concrete operation sequence exercising every `MemoryOptimizedQueue`
operation, with every append guarded by the reported length. -/
def qopsW : List (QOp Track) :=
  [.append trk1, .append trk3, .popleft, .removeByIndex 0, .clear, .append trk2]

/-- A concrete failure oracle: setting up track 1 (source handle 10) raises,
every other track loads fine. -/
def setupRaisesW : Track → Bool := fun t => t.source == 10

/-- A concrete playback oracle: `voice.play` never raises. -/
def playRaisesW : Track → Bool := fun _ => false

/-- Monitor scenario A: the voice channel has been empty of humans past the
grace delay (detected at 100, now 200, delay 10) but the queue is NOT empty.
Activity is recent, so the inactivity trigger is off. -/
def monA : MonitorState :=
  ⟨true, 10, some 100, 190, 180, some ⟨[memBot]⟩, false, none⟩

/-- Monitor scenario B: inactivity holds (last activity 0, now 200, timeout
180), the queue is empty and nothing is current, but two humans are in the
channel (three members in total). -/
def monB : MonitorState :=
  ⟨true, 10, none, 0, 180, some ⟨[memBot, memA, memB]⟩, true, none⟩

/-- A fresh two-entry snapshot restore input: both entries saved at the
current instant, both guilds known with sendable channels. -/
def restoreTwoFresh : RestoreInput :=
  ⟨true, true,
   [(1, ⟨"GuildOne", some "Song1", ["Song2"], 1000⟩),
    (2, ⟨"GuildTwo", none, ["Song3"], 1000⟩)],
   [⟨1, "GuildOne", true, true⟩, ⟨2, "GuildTwo", true, true⟩],
   24, 1000⟩

end MusicBot

namespace MusicBot

/-! ## Helper lemmas about deque rotation -/

theorem rotLeft_length {α : Type} (l : List α) (k : Nat) :
    (rotLeft l k).length = l.length := by
  unfold rotLeft
  split
  · rfl
  · rename_i h
    have hk : k % l.length < l.length := Nat.mod_lt _ (Nat.pos_of_ne_zero h)
    rw [List.length_append, List.length_drop, List.length_take]
    omega

theorem rotRight_length {α : Type} (l : List α) (k : Nat) :
    (rotRight l k).length = l.length := by
  unfold rotRight
  split
  · rfl
  · rename_i h
    have hk : k % l.length < l.length := Nat.mod_lt _ (Nat.pos_of_ne_zero h)
    rw [List.length_append, List.length_drop, List.length_take]
    omega

theorem rotRight_mod_zero {α : Type} (m : List α) (k : Nat)
    (hmod : k % m.length = 0) (h0 : m.length ≠ 0) : rotRight m k = m := by
  unfold rotRight
  rw [if_neg h0, hmod, Nat.sub_zero, List.drop_length, List.take_length,
    List.nil_append]

theorem rotLeft_of_lt {α : Type} (l : List α) (k : Nat) (h : k < l.length) :
    rotLeft l k = l.drop k ++ l.take k := by
  unfold rotLeft
  rw [if_neg (by omega), Nat.mod_eq_of_lt h]

/-- Rotating right by `i` restores the splice order after the element at
index `i` has been popped from the rotated deque. -/
theorem rotRight_restore {α : Type} (l : List α) (i : Nat) (hb : i < l.length) :
    rotRight (l.drop (i + 1) ++ l.take i) i = l.take i ++ l.drop (i + 1) := by
  have hdlen : (l.drop (i + 1)).length = l.length - (i + 1) := List.length_drop _ _
  have htlen : (l.take i).length = i := by
    rw [List.length_take]
    omega
  rcases Nat.lt_or_ge i (l.length - 1) with hlt | hge
  · have hmlen : (l.drop (i + 1) ++ l.take i).length = l.length - 1 := by
      simp
      omega
    unfold rotRight
    rw [if_neg (by omega), hmlen, Nat.mod_eq_of_lt (by omega)]
    have hdl : l.length - 1 - i = (l.drop (i + 1)).length := by omega
    rw [hdl, List.drop_left, List.take_left]
  · have hi : i = l.length - 1 := by omega
    have hdrop : l.drop (i + 1) = [] := by
      apply List.drop_eq_nil_of_le
      omega
    rw [hdrop, List.nil_append, List.append_nil]
    by_cases hi0 : i = 0
    · subst hi0
      simp [rotRight]
    · have h0 : (l.take i).length ≠ 0 := by omega
      have hmod : i % (l.take i).length = 0 := by
        rw [htlen]
        exact Nat.mod_self i
      exact rotRight_mod_zero (l.take i) i hmod h0

/-- `remove_by_index` at an in-range index equals the list splice: it
returns the element at that index and keeps all other elements in their
original relative order. -/
theorem remove_by_index_spec {α : Type} (Q : MemoryOptimizedQueue α) (i : Nat)
    (hb : i < Q.q.length) :
    Q.remove_by_index (i : Int) =
      some (Q.q.get ⟨i, hb⟩,
        { Q with q := Q.q.take i ++ Q.q.drop (i + 1), size := Q.size - 1 }) := by
  unfold MemoryOptimizedQueue.remove_by_index
  rw [if_neg (by omega)]
  simp only [Int.toNat_ofNat]
  rw [rotLeft_of_lt Q.q i hb, List.drop_eq_getElem_cons hb, List.cons_append]
  simp only [List.get_eq_getElem]
  rw [rotRight_restore Q.q i hb]

/-! ## Claim theorems -/

/-- C1: an `add_to_queue` succeeds exactly when the queue length is strictly
below `max_queue_size` and the requester's current count is strictly below
`user_queue_limit`; on success the track is appended at the tail and the
returned 1-based position equals the new length; on a size-limit violation
it fails with the queue-full error and on a per-user-limit violation with
the user-limit error, in both cases leaving the queue (hence every other
requester's count) unchanged. -/
theorem add_to_queue_limits (M U : Nat) (Q : SongQueue) (t : Track)
    (hwf : wf Q) (hm : Q.maxlen = some M) :
    (Q.size < (M : Int) ∧ countUserSongs Q t.requester < U →
      QueueManager.add_to_queue M U Q t =
        (.ok (Q.size + 1, Q.size + 1), ⟨Q.q ++ [t], some M, Q.size + 1⟩)) ∧
    ((M : Int) ≤ Q.size →
      QueueManager.add_to_queue M U Q t = (.error .queueFull, Q)) ∧
    (Q.size < (M : Int) → U ≤ countUserSongs Q t.requester →
      QueueManager.add_to_queue M U Q t = (.error .userLimitExceeded, Q)) := by
  unfold wf at hwf
  refine ⟨?_, ?_, ?_⟩
  · rintro ⟨hs, hu⟩
    unfold QueueManager.add_to_queue
    rw [if_neg (by omega), if_neg (by omega)]
    simp only [MemoryOptimizedQueue.append, dequeAppend, hm]
    have hdrop : (Q.q ++ [t]).length - M = 0 := by
      simp
      omega
    rw [hdrop, List.drop_zero]
  · intro h
    unfold QueueManager.add_to_queue
    rw [if_pos (by omega)]
  · intro hs hu
    unfold QueueManager.add_to_queue
    rw [if_neg (by omega), if_pos hu]

/-- C1 witness: with queue limit 2 and user limit 1, requester A already has
one queued song, so A's second add fails with the user-limit error and the
queue is unchanged. -/
theorem add_to_queue_limits_witness :
    wf q1A ∧ q1A.maxlen = some 2 ∧
    ((q1A.size < (2 : Int) ∧ countUserSongs q1A trk2.requester < 1 →
      QueueManager.add_to_queue 2 1 q1A trk2 =
        (.ok (q1A.size + 1, q1A.size + 1), ⟨q1A.q ++ [trk2], some 2, q1A.size + 1⟩)) ∧
    ((2 : Int) ≤ q1A.size →
      QueueManager.add_to_queue 2 1 q1A trk2 = (.error .queueFull, q1A)) ∧
    (q1A.size < (2 : Int) → 1 ≤ countUserSongs q1A trk2.requester →
      QueueManager.add_to_queue 2 1 q1A trk2 = (.error .userLimitExceeded, q1A))) :=
  ⟨by decide, by decide, add_to_queue_limits 2 1 q1A trk2 (by decide) (by decide)⟩

/-- C2: on a well-formed queue, `remove_song` at a position outside
`[1, length]` fails with the invalid-position error and leaves the queue
unchanged; at a position inside it returns exactly the track at that
1-based position and the survivors keep their original relative order — the
deque-rotation removal is a list splice. -/
theorem remove_song_splice (Q : SongQueue) (position : Int) (hwf : wf Q) :
    ((position < 1 ∨ Q.size < position) →
      QueueManager.remove_song Q position = (.error .invalidPosition, Q)) ∧
    (1 ≤ position → position ≤ Q.size →
      ∃ hb : (position - 1).toNat < Q.q.length,
        QueueManager.remove_song Q position =
          (.ok (Q.q.get ⟨(position - 1).toNat, hb⟩),
           { Q with
               q := Q.q.take (position - 1).toNat ++
                 Q.q.drop ((position - 1).toNat + 1),
               size := Q.size - 1 })) := by
  unfold wf at hwf
  constructor
  · intro h
    unfold QueueManager.remove_song
    rw [if_pos h]
  · intro h1 h2
    have hb : (position - 1).toNat < Q.q.length := by omega
    refine ⟨hb, ?_⟩
    unfold QueueManager.remove_song
    rw [if_neg (by omega)]
    have hcast : (((position - 1).toNat : Nat) : Int) = position - 1 := by omega
    have hspec := remove_by_index_spec Q (position - 1).toNat hb
    rw [hcast] at hspec
    rw [hspec]

/-- C2 witness: removing position 2 of a well-formed three-track queue
returns the middle track and splices it out; position 5 is rejected
untouched. -/
theorem remove_song_splice_witness :
    wf q3 ∧
    ((((2 : Int) < 1 ∨ q3.size < 2) →
      QueueManager.remove_song q3 2 = (.error .invalidPosition, q3)) ∧
    ((1 : Int) ≤ 2 → (2 : Int) ≤ q3.size →
      ∃ hb : ((2 : Int) - 1).toNat < q3.q.length,
        QueueManager.remove_song q3 2 =
          (.ok (q3.q.get ⟨((2 : Int) - 1).toNat, hb⟩),
           { q3 with
               q := q3.q.take ((2 : Int) - 1).toNat ++
                 q3.q.drop (((2 : Int) - 1).toNat + 1),
               size := q3.size - 1 }))) :=
  ⟨by decide, remove_song_splice q3 2 (by decide)⟩

end MusicBot

namespace MusicBot

/-! ## FIFO refinement helpers (claim C3) -/

theorem add_to_queue_sim (M U : Nat) (Q : SongQueue) (t : Track)
    (hwf : wf Q) (hm : Q.maxlen = some M) :
    wf (QueueManager.add_to_queue M U Q t).2 ∧
    ((QueueManager.add_to_queue M U Q t).2).q = specAdd M U Q.q t ∧
    ((QueueManager.add_to_queue M U Q t).2).maxlen = some M := by
  have hw := hwf
  unfold wf at hw
  unfold QueueManager.add_to_queue specAdd
  rw [hw]
  by_cases h1 : (M : Int) ≤ (Q.q.length : Int)
  · simp only [if_pos h1]
    exact ⟨hwf, by simp, hm⟩
  · simp only [if_neg h1]
    have hcount : countUserList Q.q t.requester = countUserSongs Q t.requester := rfl
    rw [hcount]
    by_cases h2 : U ≤ countUserSongs Q t.requester
    · simp only [if_pos h2]
      exact ⟨hwf, by simp, hm⟩
    · simp only [if_neg h2]
      have hd : (Q.q ++ [t]).length - M = 0 := by
        rw [List.length_append]
        simp
        omega
      refine ⟨?_, ?_, ?_⟩
      · show wf (MemoryOptimizedQueue.append Q t)
        unfold wf MemoryOptimizedQueue.append dequeAppend
        rw [hm]
        simp only [hd, List.drop_zero, List.length_append]
        simp
        omega
      · show dequeAppend Q.maxlen Q.q t = Q.q ++ [t]
        rw [hm]
        unfold dequeAppend
        simp only [hd, List.drop_zero]
      · show Q.maxlen = some M
        exact hm

theorem get_next_song_nil (Q : SongQueue) (hwf : wf Q) (hq : Q.q = []) :
    QueueManager.get_next_song Q = (.empty, Q) := by
  unfold wf at hwf
  unfold QueueManager.get_next_song
  rw [if_pos (by rw [hq] at hwf; simpa using hwf)]

theorem get_next_song_cons (Q : SongQueue) (t : Track) (rest : List Track)
    (hwf : wf Q) (hq : Q.q = t :: rest) :
    QueueManager.get_next_song Q =
      (.song t, { Q with q := rest, size := Q.size - 1 }) := by
  unfold wf at hwf
  unfold QueueManager.get_next_song MemoryOptimizedQueue.popleft
  rw [if_neg (by rw [hq] at hwf; simp at hwf; omega)]
  simp only [hq]

theorem fifo_sim (M U : Nat) (ops : List FifoOp) (Q : SongQueue)
    (hwf : wf Q) (hm : Q.maxlen = some M) :
    (runOps M U Q ops).2 = (specRun M U Q.q ops).2 ∧
    ((runOps M U Q ops).1).q = (specRun M U Q.q ops).1 ∧
    wf (runOps M U Q ops).1 := by
  induction ops generalizing Q with
  | nil => exact ⟨rfl, rfl, hwf⟩
  | cons op ops ih =>
      cases op with
      | enqueue t =>
          obtain ⟨hwf2, hq2, hm2⟩ := add_to_queue_sim M U Q t hwf hm
          obtain ⟨ho, hq', hw⟩ := ih (QueueManager.add_to_queue M U Q t).2 hwf2 hm2
          rw [hq2] at ho hq'
          simp only [runOps, specRun]
          exact ⟨ho, hq', hw⟩
      | dequeue =>
          cases hq : Q.q with
          | nil =>
              have he := get_next_song_nil Q hwf hq
              obtain ⟨ho, hq', hw⟩ := ih Q hwf hm
              rw [hq] at ho hq'
              simp only [runOps, specRun, he, hq, List.tail_nil, List.head?_nil]
              refine ⟨?_, ?_, ?_⟩ <;> simp [ho, hq', hw]
          | cons t rest =>
              have he := get_next_song_cons Q t rest hwf hq
              have hwf2 : wf { Q with q := rest, size := Q.size - 1 } := by
                unfold wf at hwf ⊢
                rw [hq] at hwf
                simp at hwf ⊢
                omega
              obtain ⟨ho, hq', hw⟩ :=
                ih { Q with q := rest, size := Q.size - 1 } hwf2 hm
              simp only [runOps, specRun, he, hq, List.tail_cons, List.head?_cons]
              refine ⟨?_, ?_, ?_⟩ <;> simp [ho, hq', hw]

/-- C3: interleaved `add_to_queue`s and `get_next_song`s refine a plain
FIFO list: every pop observes exactly what the reference FIFO (head of the
enqueued-and-not-yet-dequeued list) observes — so the n-th pop returns the
n-th surviving add — and a pop from an empty queue returns the `None`
sentinel `empty`, leaving the queue unchanged, rather than raising. -/
theorem get_next_song_fifo (M U : Nat) (ops : List FifoOp) (Q : SongQueue)
    (hwf : wf Q) (hm : Q.maxlen = some M) :
    (runOps M U Q ops).2 = (specRun M U Q.q ops).2 ∧
    ((runOps M U Q ops).1).q = (specRun M U Q.q ops).1 ∧
    (Q.size = 0 → QueueManager.get_next_song Q = (.empty, Q)) := by
  obtain ⟨ho, hq, _⟩ := fifo_sim M U ops Q hwf hm
  refine ⟨ho, hq, fun h => ?_⟩
  unfold QueueManager.get_next_song
  rw [if_pos h]

/-- C3 witness: from the empty bound-2 queue, adding two tracks and popping
three times yields the two tracks in enqueue order and then the empty
sentinel, exactly as the reference FIFO predicts. -/
theorem get_next_song_fifo_witness :
    wf qEmpty2 ∧ qEmpty2.maxlen = some 2 ∧
    ((runOps 2 1 qEmpty2 fifoOpsW).2 = (specRun 2 1 qEmpty2.q fifoOpsW).2 ∧
     ((runOps 2 1 qEmpty2 fifoOpsW).1).q = (specRun 2 1 qEmpty2.q fifoOpsW).1 ∧
     (qEmpty2.size = 0 →
       QueueManager.get_next_song qEmpty2 = (.empty, qEmpty2))) :=
  ⟨by decide, by decide,
   get_next_song_fifo 2 1 fifoOpsW qEmpty2 (by decide) (by decide)⟩

/-! ## The `_size` counter invariant (claim C10) -/

theorem remove_by_index_eq_some {α : Type} (Q : MemoryOptimizedQueue α)
    (i : Int) (x : α) (Q' : MemoryOptimizedQueue α)
    (h : Q.remove_by_index i = some (x, Q')) :
    Q'.q.length + 1 = Q.q.length ∧ Q'.size = Q.size - 1 ∧
    Q'.maxlen = Q.maxlen := by
  unfold MemoryOptimizedQueue.remove_by_index at h
  split at h
  · exact absurd h (by simp)
  · rename_i hcond
    split at h
    · exact absurd h (by simp)
    · rename_i y rest hrot
      rw [Option.some.injEq, Prod.mk.injEq] at h
      obtain ⟨-, hQ'⟩ := h
      subst hQ'
      have hlen : Q.q.length = rest.length + 1 := by
        have := rotLeft_length Q.q i.toNat
        rw [hrot] at this
        simpa using this.symm
      refine ⟨?_, rfl, rfl⟩
      simp only [rotRight_length]
      omega

/-- C10: for every operation sequence in which each `append` fires only
while the reported length is strictly below the `maxlen` bound, the `_size`
counter stays equal to the true number of elements in the backing deque, so
`__len__` and the emptiness checks built on it stay accurate. -/
theorem size_counter_invariant {α : Type} (ops : List (QOp α))
    (Q : MemoryOptimizedQueue α) (hwf : wf Q)
    (hg : guardedB Q ops = true) : wf (applyOps Q ops) := by
  induction ops generalizing Q with
  | nil => exact hwf
  | cons op ops ih =>
      unfold guardedB at hg
      rw [Bool.and_eq_true] at hg
      obtain ⟨hop, hrest⟩ := hg
      refine ih (applyOp Q op) ?_ hrest
      cases op with
      | append x =>
          unfold wf at hwf ⊢
          simp only [applyOp, MemoryOptimizedQueue.append, dequeAppend]
          cases hm : Q.maxlen with
          | none =>
              simp
              omega
          | some m =>
              simp only [hm] at hop
              rw [decide_eq_true_eq] at hop
              have hd : (Q.q ++ [x]).length - m = 0 := by
                rw [List.length_append]
                simp
                omega
              simp only [hm, hd, List.drop_zero]
              simp
              omega
      | popleft =>
          simp only [applyOp, MemoryOptimizedQueue.popleft]
          cases hq : Q.q with
          | nil =>
              simp only [hq]
              exact hwf
          | cons t rest =>
              simp only [hq]
              unfold wf at hwf ⊢
              rw [hq] at hwf
              simp at hwf ⊢
              omega
      | removeByIndex i =>
          simp only [applyOp]
          cases hr : Q.remove_by_index i with
          | none =>
              simp only [hr]
              exact hwf
          | some p =>
              simp only [hr]
              obtain ⟨hlen, hsz, -⟩ :=
                remove_by_index_eq_some Q i p.1 p.2 (by rw [hr])
              unfold wf at hwf ⊢
              omega
      | clear =>
          simp only [applyOp, MemoryOptimizedQueue.clear]
          unfold wf
          simp

/-- C10 witness: a concrete guarded sequence of appends, pops, an indexed
removal and a clear keeps `_size` equal to the backing deque's length. -/
theorem size_counter_invariant_witness :
    wf qEmpty2 ∧ guardedB qEmpty2 qopsW = true ∧
    wf (applyOps qEmpty2 qopsW) :=
  ⟨by decide, by decide, size_counter_invariant qopsW qEmpty2 (by decide) (by decide)⟩

end MusicBot

namespace MusicBot

/-! ## The playback loop survives bad tracks (claim C4) -/

theorem audio_player_task_run (su pl : Track → Bool) :
    ∀ (l : List Track) (Q : SongQueue), wf Q → Q.q = l →
      audio_player_task su pl true Q =
        ⟨.waitingForQueue,
         l.filter fun t => !(su t) && !(pl t),
         l.filter fun t => su t,
         l.filter fun t => !(su t) && pl t⟩ := by
  intro l
  induction l with
  | nil =>
      intro Q hwf hq
      unfold audio_player_task
      rw [if_pos (by unfold wf at hwf; rw [hq] at hwf; simpa using hwf)]
      simp
  | cons t rest ih =>
      intro Q hwf hq
      have hsz : ¬Q.size = 0 := by
        unfold wf at hwf
        rw [hq] at hwf
        simp at hwf
        omega
      unfold audio_player_task
      rw [if_neg hsz]
      split
      · rename_i heq
        rw [hq] at heq
        exact absurd heq (by simp)
      · rename_i t' rest' heq
        rw [hq] at heq
        injection heq with h1 h2
        subst h1
        subst h2
        have hwf2 : wf { q := rest, maxlen := Q.maxlen, size := Q.size - 1 } := by
          unfold wf at hwf ⊢
          rw [hq] at hwf
          simp at hwf ⊢
          omega
        rw [ih { q := rest, maxlen := Q.maxlen, size := Q.size - 1 } hwf2 rfl]
        by_cases hsu : su t
        · simp [hsu, List.filter_cons]
        · by_cases hpl : pl t
          · simp [hsu, hpl, List.filter_cons]
          · simp [hsu, hpl, List.filter_cons]

/-- C4: on a connected session, a track whose dequeue-time setup raises is
reported and skipped — the loop continues, reaches the empty-queue waiting
point instead of terminating the session, and every later good track is
still handed to `voice.play` in order. -/
theorem audio_player_task_skips_bad_tracks (su pl : Track → Bool)
    (Q : SongQueue) (hwf : wf Q) :
    audio_player_task su pl true Q =
      ⟨.waitingForQueue,
       Q.q.filter fun t => !(su t) && !(pl t),
       Q.q.filter fun t => su t,
       Q.q.filter fun t => !(su t) && pl t⟩ :=
  audio_player_task_run su pl Q.q Q hwf rfl

/-- C4 witness: a failing track followed by a good one — the failing track
is reported and skipped, the good one plays, and the loop ends up waiting
for more queue items (the session survives). -/
theorem audio_player_task_skips_bad_tracks_witness :
    wf q2full ∧
    audio_player_task setupRaisesW playRaisesW true q2full =
      ⟨.waitingForQueue,
       q2full.q.filter fun t => !(setupRaisesW t) && !(playRaisesW t),
       q2full.q.filter fun t => setupRaisesW t,
       q2full.q.filter fun t => !(setupRaisesW t) && playRaisesW t⟩ :=
  ⟨by decide,
   audio_player_task_skips_bad_tracks setupRaisesW playRaisesW q2full (by decide)⟩

/-! ## Idempotence of stop (claim C5) -/

/-- C5: calling `stop` a second time on an already-stopped session changes
nothing and never raises (the model is a total function): the result of two
calls is the result of one, that result is the terminated state (both task
handles nulled, current-track fields cleared, message and voice handle
released), the voice connection is released exactly once, and the current
source is cleaned up exactly once. -/
theorem stop_idempotent (s : Session) :
    VoiceState.stop (VoiceState.stop s) = VoiceState.stop s ∧
    terminated (VoiceState.stop s) ∧
    (VoiceState.stop s).disconnects =
      s.disconnects + (if s.voice then 1 else 0) ∧
    (VoiceState.stop s).sourceCleanups =
      s.sourceCleanups + (if s.current.isSome then 1 else 0) := by
  rcases s with ⟨ap, ct, cur, title, req, msg, v, d, sc⟩
  cases ap <;> cases ct <;> cases v <;> cases cur <;>
    simp [VoiceState.stop, VoiceState.playerTaskFinally,
      VoiceState.cancelCleanupTask, VoiceState.cleanupCurrentSong, terminated]

end MusicBot

namespace MusicBot

/-! ## The cleanup monitor's triggers (claim C6) -/

theorem should_cleanup_fst (botId : Nat) (now : Int) (s : MonitorState) :
    (should_cleanup botId now s).1 = true ↔
      ((s.autoLeaveEmpty = true ∧ is_voice_channel_empty botId s.voice = true ∧
        ∃ t0, s.emptyChannelDetectedTime = some t0 ∧
          s.emptyChannelDelay ≤ now - t0) ∨
       (s.activityTimeout ≤ now - s.lastActivityTime ∧
        ¬(s.autoLeaveEmpty = true ∧ is_voice_channel_empty botId s.voice = true ∧
          s.emptyChannelDetectedTime = none))) := by
  unfold should_cleanup
  cases hAL : s.autoLeaveEmpty <;> cases hE : is_voice_channel_empty botId s.voice
  · simp [hAL]
  · simp [hAL]
  · simp [hAL, hE]
  · simp only [hAL, hE, Bool.and_self, if_true]
    cases hD : s.emptyChannelDetectedTime with
    | none => simp [hD]
    | some t0 =>
        by_cases hd : s.emptyChannelDelay ≤ now - t0
        · simp [hD, hd]
        · simp [hD, hd]

theorem should_cleanup_snd (botId : Nat) (now : Int) (s : MonitorState) :
    (should_cleanup botId now s).2.queueEmpty = s.queueEmpty ∧
    (should_cleanup botId now s).2.current = s.current ∧
    (should_cleanup botId now s).2.voice = s.voice := by
  unfold should_cleanup
  cases hAL : s.autoLeaveEmpty <;> cases hE : is_voice_channel_empty botId s.voice
  · simp [hAL]
  · simp [hAL]
  · simp [hAL, hE]
  · simp only [hAL, hE, Bool.and_self, if_true]
    cases hD : s.emptyChannelDetectedTime with
    | none => simp [hD]
    | some t0 =>
        by_cases hd : s.emptyChannelDelay ≤ now - t0
        · simp [hD, hd]
        · simp [hD, hd]

/-- C6 amended: one monitor iteration tears the session down exactly when
BOTH of the following hold: (a) `_should_cleanup` fired — i.e. the
empty-channel condition has been detected for at least the grace delay, or
the inactivity timeout has elapsed and the empty-channel branch did not just
start its grace timer — AND (b) the queue is empty, no current track is
set, and a voice client is held whose channel has at most one member (the
bot).  Neither the empty-channel condition nor the inactivity condition is
sufficient on its own. -/
theorem monitor_check_characterization (botId : Nat) (now : Int)
    (s : MonitorState) :
    (monitor_check botId now s).1 = true ↔
      (s.queueEmpty = true ∧ s.current = none ∧
       (∃ ch, s.voice = some ch ∧ ch.members.length ≤ 1) ∧
       ((s.autoLeaveEmpty = true ∧ is_voice_channel_empty botId s.voice = true ∧
         ∃ t0, s.emptyChannelDetectedTime = some t0 ∧
           s.emptyChannelDelay ≤ now - t0) ∨
        (s.activityTimeout ≤ now - s.lastActivityTime ∧
         ¬(s.autoLeaveEmpty = true ∧
           is_voice_channel_empty botId s.voice = true ∧
           s.emptyChannelDetectedTime = none)))) := by
  have hs := should_cleanup_fst botId now s
  obtain ⟨hq, hc, hv⟩ := should_cleanup_snd botId now s
  unfold monitor_check
  by_cases hrb : (should_cleanup botId now s).1 = true
  · rw [if_pos hrb]
    have hrP := hs.mp hrb
    rw [hq, hc, hv]
    cases hqe : s.queueEmpty
    · simp [hqe]
    · cases hcur : s.current with
      | some t => simp [hcur]
      | none =>
          cases hvv : s.voice with
          | none => simp [hvv]
          | some ch =>
              by_cases hm : ch.members.length ≤ 1
              · apply iff_of_true
                · simp [hm]
                · rw [hvv] at hrP
                  exact ⟨rfl, rfl, ⟨ch, rfl, hm⟩, hrP⟩
              · apply iff_of_false
                · simp [hm]
                · rintro ⟨-, -, ⟨ch', hch', hm'⟩, -⟩
                  injection hch' with hcc
                  subst hcc
                  exact hm hm'
  · rw [if_neg hrb]
    apply iff_of_false
    · simp
    · intro hcon
      exact hrb (hs.mpr hcon.2.2.2)

/-- C6 counterexample: the two teardown conditions are not independent
triggers.  In state `monA` the voice channel has been empty of humans for
longer than the grace delay, yet no teardown happens because the queue is
non-empty; in state `monB` the inactivity condition (timeout elapsed, queue
empty, nothing playing) holds, yet no teardown happens because three members
are in the voice channel. -/
theorem monitor_triggers_not_independent :
    (monitor_check 99 200 monA).1 = false ∧
    monA.autoLeaveEmpty = true ∧
    is_voice_channel_empty 99 monA.voice = true ∧
    monA.emptyChannelDetectedTime = some 100 ∧
    monA.emptyChannelDelay ≤ 200 - 100 ∧
    monA.queueEmpty = false ∧
    (monitor_check 99 200 monB).1 = false ∧
    monB.activityTimeout ≤ 200 - monB.lastActivityTime ∧
    monB.queueEmpty = true ∧
    monB.current = none ∧
    monB.voice = some ⟨[memBot, memA, memB]⟩ := by decide

/-! ## Session replacement in the registry (claims C7) -/

/-- C7 counterexample: with a stored session whose two background tasks are
running and a stale voice client, `get_voice_state` replaces the registry
entry without stopping the old session — the displaced session still has
its playback-loop task running, so two live loop tasks exist for the guild. -/
theorem get_voice_state_orphan_counterexample :
    (get_voice_state (some ⟨1, true, true⟩) false 2).orphaned =
      [⟨1, true, true⟩] ∧
    ((get_voice_state (some ⟨1, true, true⟩) false 2).orphaned.filter
      fun s => s.audioTaskRunning).length = 1 ∧
    liveLoopTasks (get_voice_state (some ⟨1, true, true⟩) false 2) = 2 := by
  decide

/-- C7 amended: `get_voice_state` reuses the stored session only when the
entry exists and the voice client is valid; in every other case it
constructs a fresh session with both tasks spawned and overwrites the
entry.  When it displaces an existing session it does not stop it: the old
session is orphaned with its task flags untouched, so the number of live
playback-loop tasks after a stale-client call is one (the new session) plus
one more whenever the old session's loop was running. -/
theorem get_voice_state_characterization (st : VSession) (freshId : Nat) :
    get_voice_state (some st) true freshId = ⟨st, st, []⟩ ∧
    get_voice_state (some st) false freshId =
      ⟨⟨freshId, true, true⟩, ⟨freshId, true, true⟩, [st]⟩ ∧
    get_voice_state none true freshId =
      ⟨⟨freshId, true, true⟩, ⟨freshId, true, true⟩, []⟩ ∧
    get_voice_state none false freshId =
      ⟨⟨freshId, true, true⟩, ⟨freshId, true, true⟩, []⟩ ∧
    liveLoopTasks (get_voice_state (some st) false freshId) =
      1 + (if st.audioTaskRunning then 1 else 0) := by
  refine ⟨rfl, rfl, rfl, rfl, ?_⟩
  unfold liveLoopTasks get_voice_state
  cases hat : st.audioTaskRunning <;> simp [hat]

/-! ## Startup restore (claim C8) -/

/-- C8: evaluating the restore path at the failing input.  With persistence
enabled and a snapshot holding two entries saved at the current instant for
two reachable guilds with sendable channels, `restore_queues_on_startup`
posts zero notices, does not clear the snapshot file, and logs an error —
because its first statement reads `self.PERSISTENCE_FILE` while `__init__`
only binds `persistence_file`, so an `AttributeError` reaches the blanket
handler.  Even the unreachable body would post zero notices (its per-entry
loop reads the equally unbound `self.bot`), still fail to clear the file
(line 309 calls `.close()` on the unawaited lazy context manager), and log
an error. -/
theorem restore_queues_attribute_error :
    restore_queues_on_startup restoreTwoFresh = ⟨0, false, true⟩ ∧
    restore_body restoreTwoFresh = ⟨0, false, true⟩ := by decide

/-! ## Snapshot write atomicity (claim C9) -/

/-- C9 counterexample: a snapshot save over a previously persisted
non-empty snapshot fails, and the file afterwards does not hold the
previous snapshot — the open-with-truncate destroyed it before the failure,
so "a failed save leaves the previously persisted snapshot unchanged" is
false. -/
theorem write_queue_data_destroys_previous :
    (write_queue_data "old-snapshot" ["chunk"]).1 = false ∧
    (write_queue_data "old-snapshot" ["chunk"]).2 ≠ "old-snapshot" := by
  decide

/-- C9 amended: the save is not atomic — there is no temporary file and no
rename.  `write_queue_data` truncates the persistence path in place on
open, and the `async with` over the synchronous builtin `open` then raises,
so every save fails and leaves an empty file; in particular a non-empty
previous snapshot is never preserved across a failed save.  Had the write
streamed before being interrupted, the path would hold a prefix of the new
snapshot, not the previous one. -/
theorem write_queue_data_truncates_in_place (prev : String)
    (chunks : List String) :
    write_queue_data prev chunks = (false, "") ∧
    (prev ≠ "" → (write_queue_data prev chunks).2 ≠ prev) ∧
    (∀ k, write_queue_data_interrupted chunks (some k) =
      (false, String.join (chunks.take k))) := by
  refine ⟨rfl, ?_, fun k => rfl⟩
  intro hp
  exact Ne.symm hp

/-- C9 amended witness: over the concrete previous snapshot "old" the save
fails and the file no longer holds "old". -/
theorem write_queue_data_truncates_in_place_witness :
    ("old" : String) ≠ "" ∧ (write_queue_data "old" ["x"]).2 ≠ "old" :=
  ⟨by decide, (write_queue_data_truncates_in_place "old" ["x"]).2.1 (by decide)⟩

end MusicBot
